import Mathlib

/-!
Verification development for the channel-management bot in `main.py`.

The Python source is shallowly embedded: pure computations become Lean
functions, the mutable tables (`USER_CHANNELS`, `context.bot_data['media_groups']`,
the job queue) become explicit state passed through step functions, and
fallible subprocess calls become functions from an outcome to `Except`.
Python machine floats only occur in the quality/speed formulas, where the
values are rationals with denominator 100 or 50; they are modelled as `ℚ`
(the double rounding error there is orders of magnitude below the distance
to the nearest integer boundary, except at exact integers where both agree,
so truncation results coincide).
-/

/- ===== Python string primitives, embedded structurally ===== -/

/-- Length of one code point in UTF-16 code units; `len(s.encode('utf-16-le'))//2`
counts every BMP code point once and every astral code point twice. -/
def utf16CharLen (c : Char) : Nat := if c.toNat < 65536 then 1 else 2

/-- `len(s.encode('utf-16-le')) // 2` for a Python `str`. -/
def utf16Len (s : String) : Nat := (s.data.map utf16CharLen).sum

/-- Python `int(x)` on a real value: truncation toward zero. -/
def pyTrunc (x : ℚ) : Int := if 0 ≤ x then ⌊x⌋ else ⌈x⌉

/-- First occurrence of `sep` in a character list: `some (before, after)`
splits around the leftmost match, scanning left to right as Python
`str.split`/`in` do. `acc` holds the scanned-over part reversed. -/
def splitOnceAux (sep : List Char) (acc : List Char) :
    List Char → Option (List Char × List Char)
  | [] => none
  | c :: rest =>
      if sep.isPrefixOf (c :: rest) then
        some (acc.reverse, (c :: rest).drop sep.length)
      else
        splitOnceAux sep (c :: acc) rest

/-- Python `s.split(sep)` for non-empty `sep`, with explicit fuel (any fuel
at least the number of separator occurrences gives the full split; callers
pass the string length). -/
def splitAllAux (sep : List Char) : Nat → List Char → List (List Char)
  | 0, s => [s]
  | fuel + 1, s =>
      match splitOnceAux sep [] s with
      | none => [s]
      | some (pre, post) => pre :: splitAllAux sep fuel post

/-- Python `s.split(sep)` (all occurrences, non-overlapping, left to right). -/
def pySplit (s sep : String) : List String :=
  (splitAllAux sep.data s.data.length s.data).map fun l => ⟨l⟩

/-- Python `s.split(sep, 1)`: at most one split, at the first occurrence. -/
def pySplitOnce (s sep : String) : Option (String × String) :=
  (splitOnceAux sep.data [] s.data).map fun p => (⟨p.1⟩, ⟨p.2⟩)

/-- Python `sub in s` (substring containment). -/
def pyContains (s sub : String) : Bool := (splitOnceAux sub.data [] s.data).isSome

/-- Python `s.strip()`: whitespace removed from both ends. -/
def pyStrip (s : String) : String :=
  ⟨((s.data.dropWhile Char.isWhitespace).reverse.dropWhile Char.isWhitespace).reverse⟩

/- ===== Data model ===== -/

/-- A Telegram rich-text entity as handled by the bot: the seven fields the
orchestrator copies when re-emitting an entity at a shifted offset
(`main.py` lines 2505-2514). The `user` payload is opaque to the bot and is
modelled by an identifier. -/
structure MessageEntity where
  etype : String
  offset : Nat
  length : Nat
  url : Option String
  user : Option Int
  language : Option String
  customEmojiId : Option String
  deriving DecidableEq

/-- An inline URL button produced by the auto-button rule
(`InlineKeyboardButton(text, url=url)`). -/
structure IKButton where
  text : String
  url : String
  deriving DecidableEq

/-- An inline keyboard: rows of buttons. -/
def Markup := List (List IKButton)
deriving instance DecidableEq for Markup

/-- `auto_button` block of a channel record: `status` and the raw
configuration string (`None` when the key was never written). -/
structure ButtonSettings where
  status : String
  config : Option String
  deriving DecidableEq

/-- `auto_captions` block: status, configured caption text, and the stored
entity list (`.get("entities", [])`). -/
structure CaptionSettings where
  status : String
  config : Option String
  entities : List MessageEntity
  deriving DecidableEq

/-- `auto_reactions` block. -/
structure ReactionSettings where
  status : String
  deriving DecidableEq

/-- `auto_watermark` block. Fields that the Python code reads through
`.get(key, default)` are stored with the value that read produces, so a
record always carries a value for every key. -/
structure WatermarkSettings where
  status : String
  wtype : String
  config : Option String
  position : String
  size : Nat
  transparency : Nat
  quality : Nat
  rotation : Nat
  color : String
  effect : String
  effectSpeed : Nat
  fileId : Option String
  filePath : Option String
  deriving DecidableEq

/-- One channel record of `USER_CHANNELS[user_id]`. Any of the four rule
blocks may be absent from the underlying dict. -/
structure ChannelConfig where
  id : Int
  title : Option String
  username : Option String
  ctype : String
  autoButton : Option ButtonSettings
  autoCaptions : Option CaptionSettings
  autoReactions : Option ReactionSettings
  autoWatermark : Option WatermarkSettings
  deriving DecidableEq

/-- `USER_CHANNELS`: owner id paired with that owner's channel list. -/
def Registry := List (Int × List ChannelConfig)

/-- An incoming channel post, restricted to the fields the orchestrator
reads: text or caption, their entity lists, and the reply markup. -/
structure ChannelPost where
  text : Option String
  caption : Option String
  entities : List MessageEntity
  captionEntities : List MessageEntity
  replyMarkup : Option Markup
  deriving DecidableEq

/- ===== Filter-graph compiler: speed and quality parameters ===== -/

/-- `apply_watermark` line 347: `speed_factor = 100.0 / effect_speed`,
used by all text motion effects (scroll, fade, pulse, wave). -/
def textEffectSpeedFactor (effectSpeed : Nat) : ℚ := 100 / effectSpeed

/-- `apply_image_watermark` line 183: `speed_factor = effect_speed / 50.0`,
used by the diagonal-motion overlay effects. -/
def imageEffectSpeedFactor (effectSpeed : Nat) : ℚ := effectSpeed / 50

/-- The x-coordinate of the overlay for `move_diagonal_dr` as a function of
time: the compiled expression `t*{speed_factor*100}*W/10`
(`apply_image_watermark` line 187). -/
def imageDiagonalDrX (effectSpeed : Nat) (W t : ℚ) : ℚ :=
  t * (imageEffectSpeedFactor effectSpeed * 100) * W / 10

/-- The linear phase of `scroll_left` text motion: the first argument of
`mod` in the compiled expression `x=w-mod(t*{speed_factor}*w, w+text_w)`
(`apply_watermark` line 351); the watermark traverses the frame once per
`w + text_w` increase of this phase. -/
def textScrollLeftPhase (effectSpeed : Nat) (w t : ℚ) : ℚ :=
  t * textEffectSpeedFactor effectSpeed * w

/-- Video CRF on the text-watermark path, `apply_watermark` line 402:
`crf_value = int(51 - (quality * 0.51))`. -/
def crfTextVideo (quality : Nat) : Int :=
  pyTrunc ((51 : ℚ) - quality * (51 / 100))

/-- Still-image `-q:v` on the text-watermark path, `apply_watermark`
line 414: `int((100 - quality) * 0.31)`. -/
def qvTextImage (quality : Nat) : Int :=
  pyTrunc (((100 : ℚ) - quality) * (31 / 100))

/-- Video CRF on the image-watermark path, `apply_image_watermark`
line 217: `max(0, min(51, 51 - int(quality * 51 / 100)))`. -/
def crfImageVideo (quality : Nat) : Int :=
  max 0 (min 51 (51 - pyTrunc ((quality : ℚ) * 51 / 100)))

/-- Still-image `-q:v` on the image-watermark path, `apply_image_watermark`
line 240: `max(1, min(31, int((100 - quality) * 31 / 100)))`. -/
def qvImageStill (quality : Nat) : Int :=
  max 1 (min 31 (pyTrunc (((100 : ℚ) - quality) * 31 / 100)))

/- ===== Media transform executor ===== -/

/-- How a routine invokes the external transcoder: the program and the
wall-clock timeout passed to the process wait, `none` when the wait is
unbounded. -/
structure ExecInvocation where
  program : String
  timeoutSecs : Option Nat
  deriving DecidableEq

/-- `apply_image_watermark` lines 246-251: `subprocess.run(cmd,
capture_output=True, text=True, timeout=300)` — a single synchronous run
with a 300-second timeout. -/
def applyImageWatermarkInvocation : ExecInvocation :=
  { program := "ffmpeg", timeoutSecs := some 300 }

/-- `apply_watermark` lines 420-425: `asyncio.create_subprocess_exec(...)`
followed by `await process.communicate()` with no `wait_for` — a single
asynchronous run with no timeout. -/
def applyWatermarkInvocation : ExecInvocation :=
  { program := "ffmpeg", timeoutSecs := none }

/-- Possible outcomes of the synchronous `subprocess.run` call in
`apply_image_watermark`: completion with an exit code and stderr text,
expiry of the 300-second timeout (`subprocess.TimeoutExpired`), or a
missing executable (`FileNotFoundError`). -/
inductive SyncProcOutcome where
  | completed (returncode : Int) (stderr : String)
  | timedOut
  | execMissing
  deriving DecidableEq

/-- Possible outcomes of the `create_subprocess_exec` + `communicate()`
pair in `apply_watermark`: completion, or a missing executable. There is
no timeout outcome because no timeout is armed. -/
inductive AsyncProcOutcome where
  | completed (returncode : Int) (stderr : String)
  | execMissing
  deriving DecidableEq

/-- The failure taxonomy the two routines report to their caller (each as
a raised exception in the source). -/
inductive WatermarkFailure where
  | procTimeout
  | procNonZeroExit (stderr : String)
  | executableMissing
  deriving DecidableEq

/-- Result of `apply_image_watermark` (lines 253-262) as a function of the
process outcome: non-zero exit raises `FFmpeg failed: {stderr}` (re-wrapped
by the outer handler), `TimeoutExpired` raises `FFmpeg timed out after 5
minutes`, `FileNotFoundError` is caught by `except Exception` and
re-raised. Every failure propagates; nothing is retried. -/
def applyImageWatermarkResult (out : SyncProcOutcome) : Except WatermarkFailure Unit :=
  match out with
  | .completed rc stderr => if rc = 0 then .ok () else .error (.procNonZeroExit stderr)
  | .timedOut => .error .procTimeout
  | .execMissing => .error .executableMissing

/-- Result of `apply_watermark` (lines 427-434) as a function of the
process outcome: non-zero exit raises `FFmpeg failed: {stderr}`,
`FileNotFoundError` raises the FFmpeg-not-installed message. Every failure
propagates; nothing is retried. -/
def applyWatermarkResult (out : AsyncProcOutcome) : Except WatermarkFailure Unit :=
  match out with
  | .completed rc stderr => if rc = 0 then .ok () else .error (.procNonZeroExit stderr)
  | .execMissing => .error .executableMissing

/- ===== Post transformation orchestrator ===== -/

/-- One segment of a button-configuration line (`handle_channel_post`
lines 2474-2482): strip it, keep it only when it contains `" - "` but not
`" - popup:"`, split once on `" - "` into label and target, strip both,
and prefix `http://` unless the target starts with `http` or `t.me`. -/
def parseButtonSegment (seg : String) : Option IKButton :=
  let part := pyStrip seg
  if pyContains part " - " && !(pyContains part " - popup:") then
    match pySplitOnce part " - " with
    | some (label, target) =>
        let label := pyStrip label
        let target := pyStrip target
        let target :=
          if "http".data.isPrefixOf target.data || "t.me".data.isPrefixOf target.data then
            target
          else
            "http://" ++ target
        some { text := label, url := target }
    | none => none
  else
    none

/-- The auto-button mini-grammar (`handle_channel_post` lines 2469-2484 and
identically 2012-2027): lines are rows, `&&`-separated segments are
buttons; segments that yield no button are dropped, and rows with no
button are dropped. -/
def parseButtons (cfg : String) : List (List IKButton) :=
  ((pySplit cfg "\n").map fun line =>
    ((pySplit line "&&").map parseButtonSegment).filterMap id).filter
    fun row => !row.isEmpty

/-- The auto-button step (`handle_channel_post` lines 2464-2487): when the
block is active and configured and parsing produces at least one row, the
reply markup is replaced; otherwise it is left unchanged. -/
def autoButtonStep (settings : Option ButtonSettings) (markup : Option Markup) :
    Option Markup :=
  match settings with
  | none => markup
  | some s =>
      if s.status = "active" then
        match s.config with
        | some cfg =>
            if cfg ≠ "" ∧ cfg ≠ "Not set" then
              let rows := parseButtons cfg
              if rows.isEmpty then markup else some rows
            else markup
        | none => markup
      else markup

/-- The auto-caption step (`handle_channel_post` lines 2489-2519 and
identically 2032-2062): when active and configured, append `"\n\n"` plus
the configured caption to an existing text and extend the entity list with
new entity records whose offsets are shifted by the UTF-16 length of the
text plus the separator; when the post has no text, the configured caption
and its entities are taken verbatim. -/
def autoCaptionStep (settings : Option CaptionSettings) (finalText : Option String)
    (finalEntities : List MessageEntity) : Option String × List MessageEntity :=
  match settings with
  | none => (finalText, finalEntities)
  | some s =>
      if s.status = "active" then
        match s.config with
        | some cfg =>
            if cfg ≠ "" ∧ cfg ≠ "Not set" then
              match finalText with
              | some t =>
                  let separator := "\n\n"
                  let baseLen := utf16Len t
                  let offset := baseLen + utf16Len separator
                  let adjusted := s.entities.map fun e => { e with offset := e.offset + offset }
                  (some (t ++ separator ++ cfg), finalEntities ++ adjusted)
              | none => (some cfg, s.entities)
            else (finalText, finalEntities)
        | none => (finalText, finalEntities)
      else (finalText, finalEntities)

/-- The watermark-activity test computed up front (`handle_channel_post`
lines 1966-1969 and `process_media_group` lines 1548-1551): the block
exists, its status is `active`, and its config is neither `None` nor
`"Not set"`. -/
def watermarkActive (cfg : ChannelConfig) : Bool :=
  match cfg.autoWatermark with
  | none => false
  | some w =>
      w.status = "active" &&
        (match w.config with
         | none => false
         | some c => c ≠ "Not set")

/-- The text-post watermark step (`handle_channel_post` lines 2521-2527):
when the watermark is active and the post carries non-empty text, the
watermark text is appended after a bookmark marker. -/
def watermarkTextStep (cfg : ChannelConfig) (postText : Option String)
    (finalText : Option String) : Option String :=
  if watermarkActive cfg &&
      (match postText with | some t => t ≠ "" | none => false) then
    let wmText := (cfg.autoWatermark.bind (·.config)).getD ""
    match finalText with
    | some t => some (t ++ "\n\n🔖 " ++ wmText)
    | none => some ("🔖 " ++ wmText)
  else finalText

/-- `original_text` (`handle_channel_post` lines 2457-2458): the text for
a text message, else the caption. -/
def originalText (post : ChannelPost) : Option String :=
  if post.text.isSome then post.text else post.caption

/-- `original_entities` (`handle_channel_post` line 2459), normalised to a
list as the handler does with `list(original_entities) if ... else []`. -/
def originalEntities (post : ChannelPost) : List MessageEntity :=
  if post.text.isSome then post.entities else post.captionEntities

/-- The non-media transformation pipeline of `handle_channel_post`
(lines 2455-2527), in source order: buttons update the markup, captions
update text and entities, and the text-post watermark appends to the text. -/
def composeFinal (cfg : ChannelConfig) (post : ChannelPost) :
    Option String × List MessageEntity × Option Markup :=
  let markup1 := autoButtonStep cfg.autoButton post.replyMarkup
  let step2 := autoCaptionStep cfg.autoCaptions (originalText post) (originalEntities post)
  let text3 := watermarkTextStep cfg post.text step2.1
  (text3, step2.2, markup1)

/-- The edit decision (`handle_channel_post` lines 2531-2537):
`caption_changed` compares the final text and the tuples of entity dicts —
full field-by-field values, not object identity — and `markup_changed`
compares markup structurally; an edit call is issued iff either changed. -/
def editIssued (cfg : ChannelConfig) (post : ChannelPost) : Bool :=
  let f := composeFinal cfg post
  decide (f.1 ≠ originalText post) ||
    decide (f.2.1 ≠ originalEntities post) ||
    decide (f.2.2 ≠ post.replyMarkup)

/- ===== Channel registry lookup and registration ===== -/

/-- The registry scan of `handle_channel_post` lines 1953-1960 (and
`process_media_group` lines 1533-1540): iterate owners in order, channels
in order, and stop at the first channel whose id matches. -/
def findOwnerAndConfig (registry : Registry) (chId : Int) :
    Option (Int × ChannelConfig) :=
  (registry.flatMap fun p => p.2.map fun c => (p.1, c)).find?
    fun q => q.2.id = chId

/-- Chat-type normalisation of `handle_forwarded_message` lines 2586-2590:
`group` and `supergroup` are kept, everything else becomes `channel`. -/
def normalizeChatType (t : String) : String :=
  if t = "group" ∨ t = "supergroup" then t else "channel"

/-- The `ch_info` record built by `handle_forwarded_message`
lines 2592-2612: all four rule blocks inactive with `Not set` configs, and
the watermark defaults written there (the keys absent from the dict are
stored as the defaults their read sites supply). -/
def defaultChannelInfo (id : Int) (title username : Option String)
    (chatType : String) : ChannelConfig :=
  { id := id
    title := title
    username := username
    ctype := normalizeChatType chatType
    autoButton := some { status := "inactive", config := some "Not set" }
    autoCaptions := some { status := "inactive", config := some "Not set", entities := [] }
    autoReactions := some { status := "inactive" }
    autoWatermark := some
      { status := "inactive"
        wtype := "text"
        config := some "Not set"
        position := "bottom_right"
        size := 50
        transparency := 50
        quality := 75
        rotation := 0
        color := "white"
        effect := "none"
        effectSpeed := 1
        fileId := none
        filePath := none } }

/-- Registration from a forwarded message (`handle_forwarded_message`
lines 2614-2624): when some saved channel already has the id, reply
"already saved" (`true`) and leave the list unchanged; otherwise append
the new record. -/
def registerForwardedChannel (channels : List ChannelConfig)
    (info : ChannelConfig) : List ChannelConfig × Bool :=
  if channels.any fun c => c.id = info.id then
    (channels, true)
  else
    (channels ++ [info], false)

/- ===== Album aggregator ===== -/

/-- One entry of `context.bot_data['media_groups']`
(`handle_channel_post` lines 1927-1933). Constituent posts are represented
by their message ids. The `processed` key is absent until the consumer
sets it and is read through `.get('processed', False)`, so it is stored
here with that read's value. -/
structure AlbumBatch where
  messages : List Nat
  chatId : Int
  jobScheduled : Bool
  processed : Bool
  deriving DecidableEq

/-- A `job_queue.run_once` registration (`handle_channel_post`
lines 1940-1945): the album it will process and the fixed delay
(`when=2.0`, in seconds). -/
structure ScheduledJob where
  mediaGroupId : String
  delaySecs : Nat
  deriving DecidableEq

/-- The aggregation state: the `media_groups` table (an association list
keyed by album id) together with the armed one-shot jobs. -/
structure AggState where
  mediaGroups : List (String × AlbumBatch)
  jobs : List ScheduledJob
  deriving DecidableEq

/-- Table lookup for an album id. -/
def findBatch (st : AggState) (gid : String) : Option AlbumBatch :=
  (st.mediaGroups.find? fun p => p.1 = gid).map (·.2)

/-- Point update of the table at an album id. -/
def updateBatch (l : List (String × AlbumBatch)) (gid : String)
    (f : AlbumBatch → AlbumBatch) : List (String × AlbumBatch) :=
  l.map fun p => if p.1 = gid then (p.1, f p.2) else p

/-- Arrival of one album constituent (`handle_channel_post`
lines 1923-1949): create the batch if the id is new, append the message,
and — only when `job_scheduled` is still false — arm one deferred job with
a 2-second delay and set the flag. -/
def onAlbumItem (st : AggState) (gid : String) (msgId : Nat) (chId : Int) :
    AggState :=
  let groups0 :=
    match findBatch st gid with
    | none => st.mediaGroups ++
        [(gid, { messages := [], chatId := chId, jobScheduled := false, processed := false })]
    | some _ => st.mediaGroups
  let groups1 := updateBatch groups0 gid fun b => { b with messages := b.messages ++ [msgId] }
  match (groups1.find? fun p => p.1 = gid).map (·.2) with
  | some b =>
      if b.jobScheduled then { mediaGroups := groups1, jobs := st.jobs }
      else
        { mediaGroups := updateBatch groups1 gid fun b => { b with jobScheduled := true }
          jobs := st.jobs ++ [{ mediaGroupId := gid, delaySecs := 2 }] }
  | none => { mediaGroups := groups1, jobs := st.jobs }

/-- A burst of arrivals for one album id, in arrival order. -/
def arriveAll (st : AggState) (gid : String) (chId : Int) (msgIds : List Nat) :
    AggState :=
  msgIds.foldl (fun s m => onAlbumItem s gid m chId) st

/-- The deferred consumer's effect on the aggregation table
(`process_media_group` lines 1502-1650): return unchanged when the album
id is unknown or the batch is already `processed`; otherwise mark it
processed and — whether the channel config is missing (line 1544), the
watermark inactive (line 1555), or the items were processed (line 1650) —
delete the entry. Per-item media work does not touch this state. -/
def runJob (st : AggState) (gid : String) (registry : Registry) : AggState :=
  match findBatch st gid with
  | none => st
  | some b =>
      if b.processed then st
      else
        let st1 : AggState :=
          { st with mediaGroups := updateBatch st.mediaGroups gid fun b => { b with processed := true } }
        match findOwnerAndConfig registry b.chatId with
        | none => { st1 with mediaGroups := st1.mediaGroups.filter fun p => !(p.1 = gid) }
        | some (_, cfg) =>
            if watermarkActive cfg then
              { st1 with mediaGroups := st1.mediaGroups.filter fun p => !(p.1 = gid) }
            else
              { st1 with mediaGroups := st1.mediaGroups.filter fun p => !(p.1 = gid) }

/- ===== Per-item watermark dispatch ===== -/

/-- Media kind of one album constituent, as tested by
`process_media_group` (`if msg.photo: ... elif msg.video: ...`). -/
inductive AlbumMediaKind where
  | photo
  | video
  | animation
  deriving DecidableEq

/-- Which transform routine a code path invokes for an item: the
text-watermark routine `apply_watermark` with the stored config string, or
the image-overlay routine `apply_image_watermark` with a watermark file. -/
inductive WatermarkRoutine where
  | textRoutine (config : Option String) (isVideo : Bool)
  | imageRoutine (filePath : Option String) (isVideo : Bool)
  deriving DecidableEq

/-- True exactly when the call is to the image-overlay routine. -/
def callsImageRoutine : Option WatermarkRoutine → Bool
  | some (.imageRoutine _ _) => true
  | _ => false

/-- The album consumer's per-item dispatch (`process_media_group`
lines 1560-1645): photos and videos always go to `apply_watermark` with
`auto_watermark_settings.get("config")` — the stored `type` is never
consulted and `apply_image_watermark` is never called — and items that are
neither photo nor video (animations) match no branch and are skipped. -/
def albumItemWatermarkCall (w : WatermarkSettings) :
    AlbumMediaKind → Option WatermarkRoutine
  | .photo => some (.textRoutine w.config false)
  | .video => some (.textRoutine w.config true)
  | .animation => none

/-- The single-post dispatch for comparison (`handle_channel_post`
lines 2081-2130 for photos, 2197-2244 for videos, 2300-2320 for
animations): photos and videos go to the image-overlay routine when the
configured type is `image` or `animation`, else to the text routine;
animation posts always go to the text routine. -/
def singlePostWatermarkCall (w : WatermarkSettings) :
    AlbumMediaKind → Option WatermarkRoutine
  | .photo =>
      if w.wtype = "image" ∨ w.wtype = "animation" then
        some (.imageRoutine w.filePath false)
      else some (.textRoutine w.config false)
  | .video =>
      if w.wtype = "image" ∨ w.wtype = "animation" then
        some (.imageRoutine w.filePath true)
      else some (.textRoutine w.config true)
  | .animation => some (.textRoutine w.config true)

/- ===== Temporary-file lifecycle ===== -/

/-- Which fallible steps of one item's processing succeed: the source
download, the watermark subprocess, and the edit-media call (whose
`TelegramError` is caught in both paths). -/
structure ItemRun where
  downloadOk : Bool
  watermarkOk : Bool
  editOk : Bool
  deriving DecidableEq

/-- Temporary files created while processing one media item — identical in
both paths (`process_media_group` lines 1578-1589, `handle_channel_post`
lines 2068-2131): the size check raises before any file is written, the
download writes the source file, and a successful watermark run writes the
output file. -/
def itemFilesCreated (r : ItemRun) : List String :=
  if !r.downloadOk then []
  else if !r.watermarkOk then ["downloaded"]
  else ["downloaded", "watermarked"]

/-- Files the album path removes (`process_media_group`: `unlink` calls at
lines 1607-1608 and 1639-1640): they run only when control reaches them,
i.e. when download and watermark both succeeded — an exception from either
is caught by the per-item `except ... continue` at lines 1642-1645, which
skips the `unlink` lines. An edit failure is caught earlier (1603/1635)
and still reaches them. -/
def albumItemFilesRemoved (r : ItemRun) : List String :=
  if r.downloadOk && r.watermarkOk then ["downloaded", "watermarked"] else []

/-- Files the single-post path removes (`handle_channel_post`
lines 2437-2450): the `finally` block unlinks whichever of the two files
exists, on every exit — success, caught failure, or exception. -/
def singlePostFilesRemoved (r : ItemRun) : List String := itemFilesCreated r

/-- Files still on disk after one item's processing. -/
def leftoverFiles (created removed : List String) : List String :=
  created.filter fun f => !removed.contains f



/- ===== Helper observations on a channel record ===== -/

/-- Status of the auto-button block, when present. -/
def buttonStatus (cfg : ChannelConfig) : Option String := cfg.autoButton.map (·.status)

/-- Status of the auto-captions block, when present. -/
def captionStatus (cfg : ChannelConfig) : Option String := cfg.autoCaptions.map (·.status)

/-- Status of the auto-reactions block, when present. -/
def reactionStatus (cfg : ChannelConfig) : Option String := cfg.autoReactions.map (·.status)

/-- Status of the auto-watermark block, when present. -/
def watermarkStatus (cfg : ChannelConfig) : Option String := cfg.autoWatermark.map (·.status)

/- ===== Shared lemmas ===== -/

lemma autoButtonStep_inactive (o : Option ButtonSettings) (m : Option Markup)
    (h : ∀ s, o = some s → s.status ≠ "active") : autoButtonStep o m = m := by
  cases ho : o with
  | none => rfl
  | some s => simp [autoButtonStep, h s ho]

lemma autoCaptionStep_inactive (o : Option CaptionSettings) (t : Option String)
    (es : List MessageEntity) (h : ∀ s, o = some s → s.status ≠ "active") :
    autoCaptionStep o t es = (t, es) := by
  cases ho : o with
  | none => rfl
  | some s => simp [autoCaptionStep, h s ho]

lemma watermarkActive_false_of_inactive (cfg : ChannelConfig)
    (h : watermarkStatus cfg ≠ some "active") : watermarkActive cfg = false := by
  cases hw : cfg.autoWatermark with
  | none => simp [watermarkActive, hw]
  | some w =>
      have : w.status ≠ "active" := by
        intro hc
        exact h (by simp [watermarkStatus, hw, hc])
      simp [watermarkActive, hw, this]

/- ===== Claim theorems ===== -/

/-- Claim C1: for a channel post with existing text and an active,
configured auto-caption rule, the orchestrator appends `"\n\n"` plus the
configured caption, and every entity re-emitted for the appended segment
is a new record whose offset is the post text's UTF-16 length, plus the
separator's UTF-16 length, plus the configured entity's original offset;
the pre-existing entities are returned unchanged in front of them. -/
theorem caption_append_shifts_offsets
    (s : CaptionSettings) (cfg t : String) (ents : List MessageEntity)
    (hact : s.status = "active") (hcfg : s.config = some cfg)
    (hne : cfg ≠ "") (hns : cfg ≠ "Not set") :
    autoCaptionStep (some s) (some t) ents =
      (some (t ++ "\n\n" ++ cfg),
        ents ++ s.entities.map fun e =>
          { e with offset := utf16Len t + utf16Len "\n\n" + e.offset }) := by
  have hfun :
      (fun (e : MessageEntity) => { e with offset := e.offset + (utf16Len t + utf16Len "\n\n") }) =
        fun (e : MessageEntity) => { e with offset := utf16Len t + utf16Len "\n\n" + e.offset } :=
    funext fun e => by simp [Nat.add_comm]
  simp [autoCaptionStep, hact, hcfg, hne, hns, hfun]

/-- Witness for C1 at a concrete input: the original text `"Hi😀"` has
UTF-16 length 4 (the emoji is an astral code point), the separator has
length 2, and the configured entity at offset 1 is re-emitted at
4 + 2 + 1 = 7, after the untouched original entity. -/
theorem caption_append_shifts_offsets_witness :
    autoCaptionStep (some ⟨"active", some "Go", [⟨"bold", 1, 2, none, none, none, none⟩]⟩)
      (some "Hi😀") [⟨"url", 0, 2, some "u", none, none, none⟩] =
    (some "Hi😀\n\nGo",
      [⟨"url", 0, 2, some "u", none, none, none⟩,
       ⟨"bold", 7, 2, none, none, none, none⟩]) :=
  (caption_append_shifts_offsets
    ⟨"active", some "Go", [⟨"bold", 1, 2, none, none, none, none⟩]⟩
    "Go" "Hi😀" [⟨"url", 0, 2, some "u", none, none, none⟩]
    rfl rfl (by decide) (by decide)).trans (by decide)

/-- Claim C2: false on the code — a segment whose target is a
`popup: <text>` directive is excluded by the guard
`' - ' in part and ' - popup:' not in part` and therefore yields no button
at all, while the bot's own configuration help (line 784) documents
`Button text - popup: Text of the popup` as inserting a popup button.
Evaluating the parser at such inputs: a lone popup segment produces no row,
and a popup segment next to a URL segment is silently dropped. -/
theorem popup_segment_yields_no_button :
    parseButtons "Click me - popup: Hello!" = [] ∧
    parseButtons "A - example.com && B - popup: Hi" =
      [[⟨"A", "http://example.com"⟩]] := by
  constructor <;> decide

/-- Claim C3: false as stated — only the image-watermark routine bounds
the transcoder by 300 seconds; the text-watermark routine awaits the
process with no timeout at all. -/
theorem text_watermark_has_no_timeout :
    applyWatermarkInvocation.timeoutSecs ≠ some 300 := by decide

/-- Claim C3 (amended): the image-watermark routine runs the transcoder
with a hard 300-second timeout, the text-watermark routine runs it with no
timeout; each routine makes a single attempt, and every applicable failure
kind — timeout (image routine only), non-zero exit carrying stderr, and
missing executable — is reported to the caller as a raised failure. -/
theorem executor_timeout_and_failure_reporting :
    applyImageWatermarkInvocation.timeoutSecs = some 300 ∧
    applyWatermarkInvocation.timeoutSecs = none ∧
    (∀ (rc : Int) (err : String), rc ≠ 0 →
      applyImageWatermarkResult (.completed rc err) = .error (.procNonZeroExit err)) ∧
    applyImageWatermarkResult .timedOut = .error .procTimeout ∧
    applyImageWatermarkResult .execMissing = .error .executableMissing ∧
    (∀ (rc : Int) (err : String), rc ≠ 0 →
      applyWatermarkResult (.completed rc err) = .error (.procNonZeroExit err)) ∧
    applyWatermarkResult .execMissing = .error .executableMissing := by
  refine ⟨rfl, rfl, ?_, rfl, rfl, ?_, rfl⟩ <;>
    · intro rc err h
      simp [applyImageWatermarkResult, applyWatermarkResult, h]

/-- Witness for C3 at a concrete input: exit code 1 with stderr `"boom"`
is reported as a non-zero-exit failure by the image routine. -/
theorem executor_timeout_and_failure_reporting_witness :
    (1 : Int) ≠ 0 ∧
    applyImageWatermarkResult (.completed 1 "boom") = .error (.procNonZeroExit "boom") :=
  ⟨by decide, executor_timeout_and_failure_reporting.2.2.1 1 "boom" (by decide)⟩

/-- Claim C4: false on the code for the album path — when the watermark
step of an album item raises, the per-item `except ... continue` skips the
`unlink` calls and the downloaded source file stays on disk; the
single-post path removes both temporary files on every exit through its
`finally` block. -/
theorem album_item_failure_leaks_downloaded_file :
    leftoverFiles (itemFilesCreated ⟨true, false, true⟩)
      (albumItemFilesRemoved ⟨true, false, true⟩) = ["downloaded"] ∧
    (∀ r : ItemRun,
      leftoverFiles (itemFilesCreated r) (singlePostFilesRemoved r) = []) := by
  refine ⟨by decide, ?_⟩
  rintro ⟨d, w, e⟩
  cases d <;> cases w <;> cases e <;> decide

/-- Claim C6: false on the code — the text-watermark motion effects use
`speed_factor = 100 / effect_speed` (higher value, slower motion), but the
image-watermark diagonal effects use `speed_factor = effect_speed / 50`,
which multiplies the velocity: at effect speed 100 the overlay has moved
farther after one second than at effect speed 1, so a higher value moves
the watermark faster, not slower. -/
theorem diagonal_motion_speeds_up_with_effect_speed :
    imageDiagonalDrX 1 10 1 < imageDiagonalDrX 100 10 1 ∧
    textScrollLeftPhase 100 10 1 < textScrollLeftPhase 1 10 1 := by
  constructor <;>
    norm_num [imageDiagonalDrX, imageEffectSpeedFactor,
      textScrollLeftPhase, textEffectSpeedFactor]

/-- Claim C9: false on the code for still images — at quality 100 the
text-watermark path computes `int((100-100)*0.31) = 0` and the
image-watermark path computes `max(1, min(31, 0)) = 1`, both outside the
claimed (and source-commented) 2–31 range; at quality 94 the text path
already yields 1. -/
theorem still_image_quality_out_of_claimed_range :
    qvTextImage 100 = 0 ∧ qvImageStill 100 = 1 ∧ qvTextImage 94 = 1 := by
  refine ⟨?_, ?_, ?_⟩ <;> norm_num [qvTextImage, qvImageStill, pyTrunc]

/-- Claim C7: with all four rule blocks inactive, the non-media pipeline
leaves text, entities and markup exactly as the original post's, and the
change check — computed over the final values (entity records compared
field by field, markup compared structurally, never by object identity) —
issues no edit call. -/
theorem edit_suppressed_when_all_inactive (cfg : ChannelConfig) (post : ChannelPost)
    (hb : buttonStatus cfg ≠ some "active")
    (hc : captionStatus cfg ≠ some "active")
    (_hr : reactionStatus cfg ≠ some "active")
    (hw : watermarkStatus cfg ≠ some "active") :
    composeFinal cfg post = (originalText post, originalEntities post, post.replyMarkup) ∧
    editIssued cfg post = false := by
  have h1 : autoButtonStep cfg.autoButton post.replyMarkup = post.replyMarkup := by
    apply autoButtonStep_inactive
    intro s hs hc2
    exact hb (by simp [buttonStatus, hs, hc2])
  have h2 : autoCaptionStep cfg.autoCaptions (originalText post) (originalEntities post) =
      (originalText post, originalEntities post) := by
    apply autoCaptionStep_inactive
    intro s hs hc2
    exact hc (by simp [captionStatus, hs, hc2])
  have h3 : watermarkActive cfg = false := watermarkActive_false_of_inactive cfg hw
  have h4 : composeFinal cfg post =
      (originalText post, originalEntities post, post.replyMarkup) := by
    simp [composeFinal, h1, h2, watermarkTextStep, h3]
  exact ⟨h4, by simp [editIssued, h4]⟩

/-- Witness for C7 at a concrete input: a freshly registered channel (all
blocks inactive) and a plain text post produce no edit. -/
theorem edit_suppressed_when_all_inactive_witness :
    buttonStatus (defaultChannelInfo 1 none none "channel") ≠ some "active" ∧
    editIssued (defaultChannelInfo 1 none none "channel")
      ⟨some "hey", none, [], [], none⟩ = false :=
  ⟨by decide,
    (edit_suppressed_when_all_inactive (defaultChannelInfo 1 none none "channel")
      ⟨some "hey", none, [], [], none⟩
      (by decide) (by decide) (by decide) (by decide)).2⟩

/-- Claim C8: registration via a forwarded message preserves uniqueness of
channel ids within an owner's list — forwarding from an already-saved
channel changes nothing and answers "already saved", forwarding from a new
channel appends exactly one record whose four rule blocks are all
inactive with `Not set` configs. -/
theorem register_unique_and_inactive (channels : List ChannelConfig) (i : Int)
    (ti un : Option String) (ty : String)
    (h : (channels.map (·.id)).Nodup) :
    ((registerForwardedChannel channels (defaultChannelInfo i ti un ty)).1.map (·.id)).Nodup ∧
    ((channels.any fun c => c.id = i) = true →
      registerForwardedChannel channels (defaultChannelInfo i ti un ty) = (channels, true)) ∧
    ((channels.any fun c => c.id = i) = false →
      registerForwardedChannel channels (defaultChannelInfo i ti un ty) =
        (channels ++ [defaultChannelInfo i ti un ty], false)) ∧
    buttonStatus (defaultChannelInfo i ti un ty) = some "inactive" ∧
    captionStatus (defaultChannelInfo i ti un ty) = some "inactive" ∧
    reactionStatus (defaultChannelInfo i ti un ty) = some "inactive" ∧
    watermarkStatus (defaultChannelInfo i ti un ty) = some "inactive" ∧
    (defaultChannelInfo i ti un ty).autoButton.bind (·.config) = some "Not set" ∧
    (defaultChannelInfo i ti un ty).autoCaptions.bind (·.config) = some "Not set" ∧
    (defaultChannelInfo i ti un ty).autoWatermark.bind (·.config) = some "Not set" := by
  have hid : (defaultChannelInfo i ti un ty).id = i := rfl
  by_cases hany : (channels.any fun c => c.id = i) = true
  · have hreg : registerForwardedChannel channels (defaultChannelInfo i ti un ty) =
        (channels, true) := by
      simp [registerForwardedChannel, hid, hany]
    refine ⟨by rw [hreg]; exact h, fun _ => hreg, ?_, rfl, rfl, rfl, rfl, rfl, rfl, rfl⟩
    intro hfalse
    rw [hfalse] at hany
    cases hany
  · have hf : (channels.any fun c => c.id = i) = false := by
      cases hx : channels.any fun c => c.id = i
      · rfl
      · exact absurd hx hany
    have hreg : registerForwardedChannel channels (defaultChannelInfo i ti un ty) =
        (channels ++ [defaultChannelInfo i ti un ty], false) := by
      simp only [registerForwardedChannel, hid]
      rw [if_neg (by rw [hf]; simp)]
    have hnotin : ∀ c ∈ channels, ¬ c.id = i := by
      intro c hcm
      have := List.any_eq_false.mp hf c hcm
      simpa using this
    refine ⟨?_, ?_, fun _ => hreg, rfl, rfl, rfl, rfl, rfl, rfl, rfl⟩
    · rw [hreg]
      simp only [List.map_append, List.map_cons, List.map_nil]
      rw [List.nodup_append]
      refine ⟨h, List.nodup_singleton _, ?_⟩
      intro x hx
      simp only [hid, List.mem_singleton]
      intro hxi
      obtain ⟨c, hcm, hcid⟩ := List.mem_map.mp hx
      exact hnotin c hcm (by rw [hcid, hxi])
    · intro htrue
      rw [htrue] at hf
      cases hf

/-- Witness for C8 at a concrete input: registering channel id 7 into a
one-channel list keeps the id list duplicate-free. -/
theorem register_unique_and_inactive_witness :
    (([defaultChannelInfo 5 none none "channel"].map (·.id)).Nodup) ∧
    (((registerForwardedChannel [defaultChannelInfo 5 none none "channel"]
        (defaultChannelInfo 7 none none "channel")).1.map (·.id)).Nodup) :=
  ⟨by decide,
    (register_unique_and_inactive [defaultChannelInfo 5 none none "channel"]
      7 none none "channel" (by decide)).1⟩

/-- Claim C10: the album batch consumer sends every photo item and every
video item to the text-watermark routine with the stored config string —
the configured watermark type is never consulted, the image-overlay
routine is never invoked for album items — and album items that are
animations match no branch and are not processed at all; the single-post
dispatch, by contrast, picks the image-overlay routine exactly when the
configured type is `image` or `animation` (for photos and videos). -/
theorem album_uses_text_routine_always :
    ∀ w : WatermarkSettings,
      albumItemWatermarkCall w .photo = some (.textRoutine w.config false) ∧
      albumItemWatermarkCall w .video = some (.textRoutine w.config true) ∧
      albumItemWatermarkCall w .animation = none ∧
      (∀ k, callsImageRoutine (albumItemWatermarkCall w k) = false) ∧
      callsImageRoutine (singlePostWatermarkCall w .photo) =
        decide (w.wtype = "image" ∨ w.wtype = "animation") := by
  intro w
  refine ⟨rfl, rfl, rfl, fun k => by cases k <;> rfl, ?_⟩
  by_cases hw : w.wtype = "image" ∨ w.wtype = "animation" <;>
    simp [singlePostWatermarkCall, callsImageRoutine, hw]

/- ===== Aggregator lemmas ===== -/

lemma updateBatch_append (l1 l2 : List (String × AlbumBatch)) (gid : String)
    (f : AlbumBatch → AlbumBatch) :
    updateBatch (l1 ++ l2) gid f = updateBatch l1 gid f ++ updateBatch l2 gid f :=
  List.map_append _ _ _

lemma updateBatch_congr (l : List (String × AlbumBatch)) (gid : String)
    (f g : AlbumBatch → AlbumBatch) (hfg : ∀ x, f x = g x) :
    updateBatch l gid f = updateBatch l gid g := by
  unfold updateBatch
  exact List.map_congr_left fun p _ => by by_cases h : p.1 = gid <;> simp [h, hfg]

lemma updateBatch_updateBatch (l : List (String × AlbumBatch)) (gid : String)
    (f g : AlbumBatch → AlbumBatch) :
    updateBatch (updateBatch l gid f) gid g = updateBatch l gid fun x => g (f x) := by
  induction l with
  | nil => rfl
  | cons p l ih =>
      by_cases h : p.1 = gid <;> simp [updateBatch, h] <;>
        simpa [updateBatch] using ih

lemma find?_updateBatch (l : List (String × AlbumBatch)) (gid : String)
    (f : AlbumBatch → AlbumBatch) :
    ((updateBatch l gid f).find? fun p => p.1 = gid) =
      (l.find? fun p => p.1 = gid).map fun p => (p.1, f p.2) := by
  induction l with
  | nil => rfl
  | cons p l ih =>
      by_cases h : p.1 = gid
      · simp [updateBatch, List.find?_cons, h]
      · simpa [updateBatch, List.find?_cons, h] using ih

lemma updateBatch_of_find?_none (l : List (String × AlbumBatch)) (gid : String)
    (f : AlbumBatch → AlbumBatch) (h : (l.find? fun p => p.1 = gid) = none) :
    updateBatch l gid f = l := by
  induction l with
  | nil => rfl
  | cons p l ih =>
      rw [List.find?_eq_none] at h
      have hhead : ¬ p.1 = gid := by simpa using h p (List.mem_cons_self p l)
      have htail : (l.find? fun q => q.1 = gid) = none :=
        List.find?_eq_none.mpr fun x hx => h x (List.mem_cons_of_mem p hx)
      simp [updateBatch, hhead]
      simpa [updateBatch] using ih htail

lemma find?_append_of_none {α : Type} (p : α → Bool) (l1 l2 : List α)
    (h : l1.find? p = none) : (l1 ++ l2).find? p = l2.find? p := by
  rw [List.find?_append, h, Option.none_or]

lemma find?_filter_ne (l : List (String × AlbumBatch)) (gid : String) :
    ((l.filter fun p => !(p.1 = gid)).find? fun p => p.1 = gid) = none := by
  rw [List.find?_eq_none]
  intro x hx
  have h2 := (List.mem_filter.mp hx).2
  simpa using h2

lemma onAlbumItem_first (st : AggState) (gid : String) (m : Nat) (chId : Int)
    (h : findBatch st gid = none) :
    onAlbumItem st gid m chId =
      { mediaGroups := st.mediaGroups ++ [(gid, ⟨[m], chId, true, false⟩)],
        jobs := st.jobs ++ [⟨gid, 2⟩] } := by
  have hfind : (st.mediaGroups.find? fun p => p.1 = gid) = none := by
    have h2 := h
    unfold findBatch at h2
    exact Option.map_eq_none'.mp h2
  have hupd : updateBatch st.mediaGroups gid
      (fun b => { b with messages := b.messages ++ [m] }) = st.mediaGroups :=
    updateBatch_of_find?_none _ _ _ hfind
  have hupd2 : updateBatch st.mediaGroups gid
      (fun b => { b with jobScheduled := true }) = st.mediaGroups :=
    updateBatch_of_find?_none _ _ _ hfind
  have hsingle : updateBatch
      [(gid, (⟨[], chId, false, false⟩ : AlbumBatch))] gid
      (fun b => { b with messages := b.messages ++ [m] }) =
      [(gid, (⟨[m], chId, false, false⟩ : AlbumBatch))] := by
    simp [updateBatch]
  have hsingle2 : updateBatch
      [(gid, (⟨[m], chId, false, false⟩ : AlbumBatch))] gid
      (fun b => { b with jobScheduled := true }) =
      [(gid, (⟨[m], chId, true, false⟩ : AlbumBatch))] := by
    simp [updateBatch]
  have hfind2 : ((st.mediaGroups ++ [(gid, (⟨[m], chId, false, false⟩ : AlbumBatch))]).find?
      fun p => p.1 = gid) = some (gid, (⟨[m], chId, false, false⟩ : AlbumBatch)) := by
    rw [find?_append_of_none _ _ _ hfind]
    simp [List.find?_cons]
  simp only [onAlbumItem, h]
  rw [updateBatch_append, hupd, hsingle, hfind2]
  simp only [Option.map_some']
  rw [if_neg (by simp)]
  rw [updateBatch_append, hupd2, hsingle2]

lemma onAlbumItem_existing (st : AggState) (gid : String) (m : Nat) (chId : Int)
    (b : AlbumBatch) (h : findBatch st gid = some b) (hs : b.jobScheduled = true) :
    onAlbumItem st gid m chId =
      { mediaGroups := updateBatch st.mediaGroups gid
          fun x => { x with messages := x.messages ++ [m] },
        jobs := st.jobs } := by
  obtain ⟨p, hp, hp2⟩ : ∃ p, (st.mediaGroups.find? fun q => q.1 = gid) = some p ∧ p.2 = b := by
    have h2 := h
    unfold findBatch at h2
    exact Option.map_eq_some'.mp h2
  simp only [onAlbumItem, h]
  rw [find?_updateBatch, hp]
  simp [hp2, hs]

lemma updateBatch_id (l : List (String × AlbumBatch)) (gid : String) :
    updateBatch l gid (fun x => x) = l := by
  simp [updateBatch]

lemma arriveAll_existing (gid : String) (chId : Int) (ms : List Nat) :
    ∀ (st : AggState) (b : AlbumBatch), findBatch st gid = some b →
    b.jobScheduled = true →
    arriveAll st gid chId ms =
      { mediaGroups := updateBatch st.mediaGroups gid
          fun x => { x with messages := x.messages ++ ms },
        jobs := st.jobs } := by
  induction ms with
  | nil =>
      intro st b _ _
      show st = _
      rw [updateBatch_congr _ _ _ (fun x => x) fun x => by simp, updateBatch_id]
  | cons m ms ih =>
      intro st b h hs
      show arriveAll (onAlbumItem st gid m chId) gid chId ms = _
      rw [onAlbumItem_existing st gid m chId b h hs]
      have hfind1 : findBatch
          { mediaGroups := updateBatch st.mediaGroups gid
              fun x => { x with messages := x.messages ++ [m] },
            jobs := st.jobs } gid = some { b with messages := b.messages ++ [m] } := by
        obtain ⟨p, hp, hp2⟩ : ∃ p, (st.mediaGroups.find? fun q => q.1 = gid) = some p ∧ p.2 = b := by
          have h2 := h
          unfold findBatch at h2
          exact Option.map_eq_some'.mp h2
        unfold findBatch
        rw [find?_updateBatch, hp]
        simp [hp2]
      rw [ih _ _ hfind1 (by simp [hs])]
      congr 1
      rw [updateBatch_updateBatch]
      exact updateBatch_congr _ _ _ _ fun x => by simp

lemma runJob_none (st : AggState) (gid : String) (registry : Registry)
    (h : findBatch st gid = none) : runJob st gid registry = st := by
  simp [runJob, h]

lemma runJob_processed (st : AggState) (gid : String) (registry : Registry)
    (b : AlbumBatch) (h : findBatch st gid = some b) (hp : b.processed = true) :
    runJob st gid registry = st := by
  simp [runJob, h, hp]

lemma runJob_deletes (st : AggState) (gid : String) (registry : Registry)
    (b : AlbumBatch) (h : findBatch st gid = some b) (hp : b.processed = false) :
    runJob st gid registry =
      { mediaGroups := (updateBatch st.mediaGroups gid
          fun x => { x with processed := true }).filter fun p => !(p.1 = gid),
        jobs := st.jobs } := by
  cases hfoc : findOwnerAndConfig registry b.chatId with
  | none => simp [runJob, h, hp, hfoc]
  | some pc =>
      obtain ⟨u, cfg⟩ := pc
      by_cases hw : watermarkActive cfg = true
      · simp [runJob, h, hp, hfoc, hw]
      · simp [runJob, h, hp, hfoc, hw]

/-- Claim C5: for an album id with no batch and no armed job, a burst of
N ≥ 1 arrivals creates the batch once, appends every constituent in
order, and arms exactly one deferred job, with the fixed 2-second delay;
the deferred job consumes the batch and deletes it from the table (one
Registry lookup happens inside that single execution), a second firing is
a no-op, and any firing that finds the `processed` flag already set
returns with no side effects. -/
theorem album_debounce_single_job (st : AggState) (gid : String) (chId : Int)
    (m : Nat) (ms : List Nat) (registry : Registry)
    (h0 : findBatch st gid = none)
    (h1 : (st.jobs.countP fun j => j.mediaGroupId = gid) = 0) :
    arriveAll st gid chId (m :: ms) =
      { mediaGroups := st.mediaGroups ++ [(gid, ⟨m :: ms, chId, true, false⟩)],
        jobs := st.jobs ++ [⟨gid, 2⟩] } ∧
    ((arriveAll st gid chId (m :: ms)).jobs.countP fun j => j.mediaGroupId = gid) = 1 ∧
    (∀ j ∈ (arriveAll st gid chId (m :: ms)).jobs, j.mediaGroupId = gid → j.delaySecs = 2) ∧
    runJob (arriveAll st gid chId (m :: ms)) gid registry =
      { mediaGroups := st.mediaGroups, jobs := st.jobs ++ [⟨gid, 2⟩] } ∧
    runJob (runJob (arriveAll st gid chId (m :: ms)) gid registry) gid registry =
      runJob (arriveAll st gid chId (m :: ms)) gid registry ∧
    (∀ (s : AggState) (b : AlbumBatch), findBatch s gid = some b →
      b.processed = true → runJob s gid registry = s) := by
  have hfind : (st.mediaGroups.find? fun p => p.1 = gid) = none := by
    have h2 := h0
    unfold findBatch at h2
    exact Option.map_eq_none'.mp h2
  have harr : arriveAll st gid chId (m :: ms) =
      { mediaGroups := st.mediaGroups ++ [(gid, ⟨m :: ms, chId, true, false⟩)],
        jobs := st.jobs ++ [⟨gid, 2⟩] } := by
    show arriveAll (onAlbumItem st gid m chId) gid chId ms = _
    rw [onAlbumItem_first st gid m chId h0]
    have hfb1 : findBatch
        { mediaGroups := st.mediaGroups ++ [(gid, (⟨[m], chId, true, false⟩ : AlbumBatch))],
          jobs := st.jobs ++ [⟨gid, 2⟩] } gid = some ⟨[m], chId, true, false⟩ := by
      unfold findBatch
      rw [find?_append_of_none _ _ _ hfind]
      simp [List.find?_cons]
    rw [arriveAll_existing gid chId ms _ _ hfb1 rfl]
    congr 1
    rw [updateBatch_append, updateBatch_of_find?_none _ _ _ hfind]
    simp [updateBatch]
  have hfb : findBatch
      { mediaGroups := st.mediaGroups ++ [(gid, (⟨m :: ms, chId, true, false⟩ : AlbumBatch))],
        jobs := st.jobs ++ [⟨gid, 2⟩] } gid = some ⟨m :: ms, chId, true, false⟩ := by
    unfold findBatch
    rw [find?_append_of_none _ _ _ hfind]
    simp [List.find?_cons]
  have hfilter : (st.mediaGroups.filter fun p => !(p.1 = gid)) = st.mediaGroups := by
    apply List.filter_eq_self.mpr
    intro p hp
    have := List.find?_eq_none.mp hfind p hp
    simpa using this
  have hdel : runJob (arriveAll st gid chId (m :: ms)) gid registry =
      { mediaGroups := st.mediaGroups, jobs := st.jobs ++ [⟨gid, 2⟩] } := by
    rw [harr, runJob_deletes _ _ _ _ hfb rfl]
    congr 1
    rw [updateBatch_append, updateBatch_of_find?_none _ _ _ hfind]
    simp only [updateBatch, List.map_cons, List.map_nil, if_pos rfl]
    rw [List.filter_append, hfilter]
    simp
  refine ⟨harr, ?_, ?_, hdel, ?_, ?_⟩
  · rw [harr]
    simp [List.countP_append, h1, List.countP_cons]
  · rw [harr]
    intro j hj hgid
    rcases List.mem_append.mp hj with hin | hin
    · exfalso
      have := List.countP_eq_zero.mp h1 j hin
      simp [hgid] at this
    · have : j = (⟨gid, 2⟩ : ScheduledJob) := by simpa using hin
      rw [this]
  · rw [hdel]
    apply runJob_none
    unfold findBatch
    rw [hfind]
    rfl
  · intro s b hf hp
    exact runJob_processed s gid registry b hf hp

/-- Witness for C5 at a concrete input: three arrivals for album `"a"`
from the empty state produce one armed 2-second job, a batch holding the
three message ids, and a consumer run that deletes the entry. -/
theorem album_debounce_single_job_witness :
    findBatch ⟨[], []⟩ "a" = none ∧
    ((AggState.mk [] []).jobs.countP fun j => j.mediaGroupId = "a") = 0 ∧
    (arriveAll ⟨[], []⟩ "a" 7 [1, 2, 3] =
      { mediaGroups := [("a", ⟨[1, 2, 3], 7, true, false⟩)], jobs := [⟨"a", 2⟩] } ∧
    ((arriveAll ⟨[], []⟩ "a" 7 [1, 2, 3]).jobs.countP fun j => j.mediaGroupId = "a") = 1 ∧
    (∀ j ∈ (arriveAll ⟨[], []⟩ "a" 7 [1, 2, 3]).jobs, j.mediaGroupId = "a" → j.delaySecs = 2) ∧
    runJob (arriveAll ⟨[], []⟩ "a" 7 [1, 2, 3]) "a" [] =
      { mediaGroups := [], jobs := [⟨"a", 2⟩] } ∧
    runJob (runJob (arriveAll ⟨[], []⟩ "a" 7 [1, 2, 3]) "a" []) "a" [] =
      runJob (arriveAll ⟨[], []⟩ "a" 7 [1, 2, 3]) "a" [] ∧
    (∀ (s : AggState) (b : AlbumBatch), findBatch s "a" = some b →
      b.processed = true → runJob s "a" [] = s)) :=
  ⟨by decide, by decide,
    by simpa using album_debounce_single_job ⟨[], []⟩ "a" 7 1 [2, 3] [] (by decide) (by decide)⟩
